import Mathlib

/-!
Shallow embedding of the notes CRUD service (FastAPI + SQLAlchemy + SQLite):
`src/models.py` (table schema), `src/schemas.py` (pydantic request models),
`src/crud.py` (the five route handlers).

Modelling conventions:
* Timestamps (`datetime.now()` samples) are natural numbers passed explicitly
  to each handler, one parameter per `datetime.now()` call in the source.
* The `notes` table is the list of its rows in rowid order.  SQLite assigns a
  new INTEGER PRIMARY KEY one greater than the largest rowid in the table, so
  every insert appends, and a plain `SELECT` without ORDER BY scans in rowid
  order: the list order is exactly the order the engine produces.
* Each route is a pure function from its parsed inputs and the table to the
  HTTP response paired with the table afterwards.  Pydantic body validation
  happens before the handler runs, so a validation failure returns 422 with
  the table untouched.
-/

namespace NotesApi

/-- A persisted row of the `notes` table (`src/models.py`): integer primary
key, required `title`, nullable `content`, two non-null timestamps. -/
structure NoteRow where
  id : Int
  title : String
  content : Option String
  created_at : Nat
  updated_at : Nat
  deriving DecidableEq, Repr

/-- The `notes` table: rows in rowid order. -/
structure DB where
  rows : List NoteRow
  deriving DecidableEq, Repr

/-- The empty table. -/
def dbEmpty : DB := ⟨[]⟩

/-- Largest rowid present in the table (0 when empty). -/
def DB.maxId (db : DB) : Int :=
  db.rows.foldl (fun m r => max m r.id) 0

/-- The id SQLite assigns to the next inserted row: one greater than the
largest rowid currently in the table. -/
def DB.nextId (db : DB) : Int := db.maxId + 1

/-- `select(NoteModel).where(NoteModel.id == note_id)` followed by
`.scalar_one_or_none()`: the row with the given primary key, if any. -/
def DB.find (db : DB) (i : Int) : Option NoteRow :=
  db.rows.find? (fun r => r.id == i)

/-- Request body of POST /notes/ as received.  The pydantic model
`CreateNote` declares `title: str` (required) and
`content: Optional[str] = None`; `title = none` models a missing or null
title field. -/
structure RawCreate where
  title : Option String
  content : Option String
  deriving DecidableEq, Repr

/-- A create body that passed pydantic validation: `title` is a string
(possibly empty), `content` is a string or null. -/
structure CreateNote where
  title : String
  content : Option String
  deriving DecidableEq, Repr

/-- Pydantic validation of `CreateNote` (`src/schemas.py` lines 5-7): the
`title` field is required, so a missing or null title is a validation
error; there is no other constraint, and in particular the empty string
satisfies `title: str`. -/
def parseCreateNote (r : RawCreate) : Except String CreateNote :=
  match r.title with
  | none => .error "Field required: title"
  | some t => .ok ⟨t, r.content⟩

/-- Request body of PUT /notes/{id} (`src/schemas.py` lines 9-17): both
fields are `Optional[str] = None`, so an absent field and an explicit null
both arrive as `none`. -/
structure UpdateNote where
  title : Option String
  content : Option String
  deriving DecidableEq, Repr

/-- The `validate_at_least_one_field` model validator of `UpdateNote`
(`src/schemas.py` lines 13-17): a body in which both `title` and `content`
are None is rejected. -/
def parseUpdateNote (u : UpdateNote) : Except String UpdateNote :=
  if u.title = none ∧ u.content = none then
    .error "At least one of title or content must be provided and not None."
  else
    .ok u

/-- Response bodies the routes can produce. -/
inductive Body where
  | note : NoteRow → Body
  | notes : List NoteRow → Body
  | detail : String → Body
  | jsonNull : Body
  deriving DecidableEq, Repr

/-- An HTTP response: status code and body. -/
structure Response where
  status : Nat
  body : Body
  deriving DecidableEq, Repr

/-- Detail message of the 404 raised by the id routes (`src/crud.py`):
`f"Note with id {note_id} not found"`. -/
def notFoundDetail (i : Int) : String :=
  "Note with id " ++ toString i ++ " not found"

/-- The `create_note` handler body (`src/crud.py` lines 15-29): builds a row
whose `created_at` and `updated_at` come from two separate
`datetime.now()` calls, modelled as `t1` (for `created_at`, sampled first)
and `t2` (for `updated_at`, sampled second), inserts it, and returns the
refreshed row. -/
def create_note (note : CreateNote) (t1 t2 : Nat) (db : DB) : NoteRow × DB :=
  let row : NoteRow :=
    { id := db.nextId, title := note.title, content := note.content,
      created_at := t1, updated_at := t2 }
  (row, ⟨db.rows ++ [row]⟩)

/-- POST /notes/ : pydantic validates the body first (422 without invoking
the handler on failure), then `create_note` runs and the route responds
201 with the created note. -/
def postNotes (raw : RawCreate) (t1 t2 : Nat) (db : DB) : Response × DB :=
  match parseCreateNote raw with
  | .error e => ({ status := 422, body := .detail e }, db)
  | .ok note =>
      let p := create_note note t1 t2 db
      ({ status := 201, body := .note p.1 }, p.2)

/-- Query-parameter validation of GET /notes/ (`src/crud.py` lines 33-34):
`skip: int = Query(0, ge=0)` and `limit: int = Query(100, ge=1, le=100)`.
`none` models an omitted parameter, which takes the default. -/
def parseListParams (skip limit : Option Int) : Except String (Int × Int) :=
  let s := skip.getD 0
  let l := limit.getD 100
  if s < 0 then .error "skip must be greater than or equal to 0"
  else if l < 1 then .error "limit must be greater than or equal to 1"
  else if 100 < l then .error "limit must be less than or equal to 100"
  else .ok (s, l)

/-- The `get_notes` handler body (`src/crud.py` lines 37-40):
`select(NoteModel).offset(skip).limit(limit)` over the table in its scan
order. -/
def get_notes (skip limit : Int) (db : DB) : List NoteRow :=
  (db.rows.drop skip.toNat).take limit.toNat

/-- GET /notes/ : validates the query parameters (422 on failure), then
responds 200 with the selected page of notes. -/
def getNotesRoute (skip limit : Option Int) (db : DB) : Response × DB :=
  match parseListParams skip limit with
  | .error e => ({ status := 422, body := .detail e }, db)
  | .ok p => ({ status := 200, body := .notes (get_notes p.1 p.2 db) }, db)

/-- GET /notes/{id} (`src/crud.py` lines 42-49): point lookup; raises 404
with the id in the detail when the row is absent, otherwise responds 200
with the row. -/
def get_note_by_id (i : Int) (db : DB) : Response × DB :=
  match db.find i with
  | none => ({ status := 404, body := .detail (notFoundDetail i) }, db)
  | some n => ({ status := 200, body := .note n }, db)

/-- The field assignments of the `update_note` handler (`src/crud.py` lines
64-69): each supplied (non-None) field overwrites the stored one, absent
fields are left alone, then `updated_at` is set to the `datetime.now()`
sample `t`. -/
def applyUpdate (u : UpdateNote) (t : Nat) (n : NoteRow) : NoteRow :=
  let n1 := match u.title with
    | some s => { n with title := s }
    | none => n
  let n2 := match u.content with
    | some s => { n1 with content := some s }
    | none => n1
  { n2 with updated_at := t }

/-- The `update_note` handler body (`src/crud.py` lines 51-73): fetches the
row (404 with the id in the detail when absent), mutates it per
`applyUpdate`, commits, and responds 200 with the refreshed row. -/
def update_note (i : Int) (u : UpdateNote) (t : Nat) (db : DB) : Response × DB :=
  match db.find i with
  | none => ({ status := 404, body := .detail (notFoundDetail i) }, db)
  | some n =>
      let n3 := applyUpdate u t n
      ({ status := 200, body := .note n3 },
       ⟨db.rows.map (fun r => if r.id == i then n3 else r)⟩)

/-- PUT /notes/{id} : pydantic validates the body first (422 without
invoking the handler or touching the store on failure), then the
`update_note` handler runs. -/
def putNote (i : Int) (raw : UpdateNote) (t : Nat) (db : DB) : Response × DB :=
  match parseUpdateNote raw with
  | .error e => ({ status := 422, body := .detail e }, db)
  | .ok u => update_note i u t db

/-- DELETE /notes/{id} (`src/crud.py` lines 75-86): fetches the row (404
with the id in the detail when absent), deletes it and commits.  The route
decorator declares no `status_code` and the handler returns None, so
FastAPI responds with its default status 200 and a JSON `null` body. -/
def delete_note (i : Int) (db : DB) : Response × DB :=
  match db.find i with
  | none => ({ status := 404, body := .detail (notFoundDetail i) }, db)
  | some _ =>
      ({ status := 200, body := .jsonNull },
       ⟨db.rows.filter (fun r => r.id != i)⟩)

/-- One inbound request to any of the five routes, with its
`datetime.now()` samples. -/
inductive Op where
  | create (raw : RawCreate) (t1 t2 : Nat)
  | list (skip limit : Option Int)
  | get (i : Int)
  | update (i : Int) (raw : UpdateNote) (t : Nat)
  | delete (i : Int)
  deriving DecidableEq, Repr

/-- Dispatch one request to its route. -/
def runOp : Op → DB → Response × DB
  | .create raw t1 t2, db => postNotes raw t1 t2 db
  | .list skip limit, db => getNotesRoute skip limit db
  | .get i, db => get_note_by_id i db
  | .update i raw t, db => putNote i raw t db
  | .delete i, db => delete_note i db

/-- State of the table after a sequence of requests. -/
def runOps (ops : List Op) (db : DB) : DB :=
  ops.foldl (fun d op => (runOp op d).2) db

/-- Invariant of claim C3: every persisted note has a non-empty title. -/
def DB.titlesNonempty (db : DB) : Prop :=
  ∀ r ∈ db.rows, r.title ≠ ""

/-- A request never supplying an empty-string title. -/
def Op.suppliesNoEmptyTitle : Op → Prop
  | .create raw _ _ => raw.title ≠ some ""
  | .update _ raw _ => raw.title ≠ some ""
  | _ => True

instance : DecidablePred Op.suppliesNoEmptyTitle := by
  intro op
  cases op <;> simp [Op.suppliesNoEmptyTitle] <;> infer_instance

/-- A concrete one-row table used as a test fixture. -/
def rowA : NoteRow :=
  { id := 1, title := "A", content := none, created_at := 0, updated_at := 0 }

/-- The table holding exactly `rowA`. -/
def dbOne : DB := ⟨[rowA]⟩

/-- C1: on an existing id the Delete route does remove the note, but it
responds 200 with a JSON `null` body, not 204 with an empty body: the route
declares no `status_code`, so FastAPI uses its default 200 — contradicting
the test suite of the repository, which asserts 204. -/
theorem delete_existing_responds_200_null :
    delete_note 1 dbOne = ({ status := 200, body := .jsonNull }, ⟨[]⟩) := by
  rfl

/-- C2 counterexample: a create request whose title is the empty string is
not rejected — it succeeds with 201 and persists a row with an empty
title, refuting the only-if direction of the claim. -/
theorem create_empty_title_succeeds :
    postNotes ⟨some "", none⟩ 0 0 dbEmpty =
      ({ status := 201, body := .note ⟨1, "", none, 0, 0⟩ },
       ⟨[⟨1, "", none, 0, 0⟩]⟩) := by
  rfl

/-- C2 (amended): Create fails with 422 exactly when the title field is
missing or null — an empty-string title is accepted — and on such a
failure the table is unchanged, so no row is persisted. -/
theorem create_validation_iff_title_missing (raw : RawCreate) (t1 t2 : Nat)
    (db : DB) :
    ((postNotes raw t1 t2 db).1.status = 422 ↔ raw.title = none) ∧
    (raw.title = none → (postNotes raw t1 t2 db).2 = db) := by
  obtain ⟨title, content⟩ := raw
  cases title <;> simp [postNotes, parseCreateNote, create_note]

/-- Witness for C2: a body with no title is rejected with 422 and persists
nothing. -/
theorem create_validation_iff_title_missing_witness :
    (postNotes ⟨none, some "x"⟩ 1 2 dbEmpty).1.status = 422 ∧
    (postNotes ⟨none, some "x"⟩ 1 2 dbEmpty).2 = dbEmpty :=
  ⟨(create_validation_iff_title_missing ⟨none, some "x"⟩ 1 2 dbEmpty).1.mpr rfl,
   (create_validation_iff_title_missing ⟨none, some "x"⟩ 1 2 dbEmpty).2 rfl⟩

/-- C4 counterexample: `created_at` and `updated_at` come from two separate
`datetime.now()` calls; when the clock advances between them (first sample
0, second sample 1) the created note has `created_at ≠ updated_at`. -/
theorem create_two_clock_samples_differ :
    (create_note ⟨"A", none⟩ 0 1 dbEmpty).1.created_at ≠
      (create_note ⟨"A", none⟩ 0 1 dbEmpty).1.updated_at := by
  decide

/-- C4 (amended): Create sets `created_at` to the first `datetime.now()`
sample and `updated_at` to the second, so with a monotone clock
`created_at ≤ updated_at`; equality holds only when the two samples
coincide. -/
theorem create_timestamps (note : CreateNote) (t1 t2 : Nat) (db : DB)
    (h : t1 ≤ t2) :
    (create_note note t1 t2 db).1.created_at = t1 ∧
    (create_note note t1 t2 db).1.updated_at = t2 ∧
    (create_note note t1 t2 db).1.created_at ≤
      (create_note note t1 t2 db).1.updated_at :=
  ⟨rfl, rfl, h⟩

/-- Witness for C4 (amended) at clock samples 2 and 5. -/
theorem create_timestamps_witness :
    (create_note ⟨"A", none⟩ 2 5 dbEmpty).1.created_at = 2 ∧
    (create_note ⟨"A", none⟩ 2 5 dbEmpty).1.updated_at = 5 ∧
    (create_note ⟨"A", none⟩ 2 5 dbEmpty).1.created_at ≤
      (create_note ⟨"A", none⟩ 2 5 dbEmpty).1.updated_at :=
  create_timestamps ⟨"A", none⟩ 2 5 dbEmpty (by decide)

/-- C8: a PUT body in which both `title` and `content` are absent or null is
rejected with 422 by the `validate_at_least_one_field` validator; pydantic
runs before the handler, so for every id and every table the store is not
consulted and the table is returned unchanged. -/
theorem update_no_fields_rejected (i : Int) (t : Nat) (db : DB) :
    putNote i ⟨none, none⟩ t db =
      ({ status := 422,
         body := .detail
           "At least one of title or content must be provided and not None." },
       db) := by
  rfl

/-- C6: starting from the empty table, after exactly three creates the List
route with skip=1, limit=1 responds 200 with exactly the second inserted
note, whatever the bodies and clock samples were; order is the table scan
order, which the pure embedding makes stable across calls by
construction. -/
theorem list_second_of_three (b1 b2 b3 : CreateNote) (t1 t2 t3 t4 t5 t6 : Nat) :
    getNotesRoute (some 1) (some 1)
        (create_note b3 t5 t6
          (create_note b2 t3 t4 (create_note b1 t1 t2 dbEmpty).2).2).2 =
      ({ status := 200,
         body := .notes [(create_note b2 t3 t4 (create_note b1 t1 t2 dbEmpty).2).1] },
       (create_note b3 t5 t6
         (create_note b2 t3 t4 (create_note b1 t1 t2 dbEmpty).2).2).2) := by
  rfl

/-- Witness for C6 at concrete bodies and clock samples: the page holds
exactly the second inserted note. -/
theorem list_second_of_three_witness :
    getNotesRoute (some 1) (some 1)
        (create_note ⟨"C", none⟩ 2 2
          (create_note ⟨"B", none⟩ 1 1
            (create_note ⟨"A", none⟩ 0 0 dbEmpty).2).2).2 =
      ({ status := 200,
         body := .notes
           [(create_note ⟨"B", none⟩ 1 1
              (create_note ⟨"A", none⟩ 0 0 dbEmpty).2).1] },
       (create_note ⟨"C", none⟩ 2 2
         (create_note ⟨"B", none⟩ 1 1
           (create_note ⟨"A", none⟩ 0 0 dbEmpty).2).2).2) :=
  list_second_of_three ⟨"A", none⟩ ⟨"B", none⟩ ⟨"C", none⟩ 0 0 1 1 2 2

/-- C7: on an id absent from the table, GetById, Update (with a body that
passed validation) and Delete all respond 404 with a detail message
spelling out that id, and none of them returns a note body or changes the
table. -/
theorem missing_id_yields_404 (i : Int) (db : DB) (raw u : UpdateNote)
    (t : Nat) (habs : db.find i = none)
    (hok : parseUpdateNote raw = .ok u) :
    get_note_by_id i db =
      ({ status := 404,
         body := .detail ("Note with id " ++ toString i ++ " not found") }, db) ∧
    putNote i raw t db =
      ({ status := 404,
         body := .detail ("Note with id " ++ toString i ++ " not found") }, db) ∧
    delete_note i db =
      ({ status := 404,
         body := .detail ("Note with id " ++ toString i ++ " not found") }, db) := by
  refine ⟨?_, ?_, ?_⟩ <;>
    simp [get_note_by_id, putNote, update_note, delete_note, notFoundDetail,
      habs, hok]

/-- Witness for C7: id 7 is absent from the one-row table, and GetById
responds 404 naming id 7. -/
theorem missing_id_yields_404_witness :
    get_note_by_id 7 dbOne =
      ({ status := 404,
         body := .detail ("Note with id " ++ toString (7 : Int) ++ " not found") },
       dbOne) :=
  (missing_id_yields_404 7 dbOne ⟨some "x", none⟩ ⟨some "x", none⟩ 0
    (by decide) rfl).1

/-- Witness for C8 at id 3, clock sample 7, on the one-row table. -/
theorem update_no_fields_rejected_witness :
    putNote 3 ⟨none, none⟩ 7 dbOne =
      ({ status := 422,
         body := .detail
           "At least one of title or content must be provided and not None." },
       dbOne) :=
  update_no_fields_rejected 3 7 dbOne

/-- C9: the List route fails with 422 exactly when the effective skip
(default 0) is negative or the effective limit (default 100) is below 1 or
above 100; on valid parameters it responds 200 leaving the table alone,
and on an empty table the page is the empty sequence. -/
theorem list_validation (skip limit : Option Int) (db : DB) :
    ((getNotesRoute skip limit db).1.status = 422 ↔
      (skip.getD 0 < 0 ∨ limit.getD 100 < 1 ∨ 100 < limit.getD 100)) ∧
    (¬(skip.getD 0 < 0 ∨ limit.getD 100 < 1 ∨ 100 < limit.getD 100) →
      (getNotesRoute skip limit db).1.status = 200 ∧
      (getNotesRoute skip limit db).2 = db) ∧
    (db.rows = [] → (getNotesRoute skip limit db).1.status = 200 →
      (getNotesRoute skip limit db).1.body = .notes []) := by
  simp only [getNotesRoute, parseListParams]
  split_ifs with h1 h2 h3 <;> simp_all [get_notes]

/-- Witness for C9: a negative skip is rejected with 422. -/
theorem list_validation_witness :
    (getNotesRoute (some (-1)) none dbEmpty).1.status = 422 :=
  (list_validation (some (-1)) none dbEmpty).1.mpr (Or.inl (by decide))

/-- C10: whenever a route responds with an error status (404 or 422), the
table it returns is exactly the table it was given: no error path creates,
modifies or deletes a note. -/
theorem error_leaves_table_unchanged (op : Op) (db : DB)
    (herr : 400 ≤ (runOp op db).1.status) :
    (runOp op db).2 = db := by
  cases op with
  | create raw t1 t2 =>
      obtain ⟨title, content⟩ := raw
      cases title <;> simp_all [runOp, postNotes, parseCreateNote, create_note]
  | list skip limit =>
      simp only [runOp, getNotesRoute]
      cases parseListParams skip limit <;> simp
  | get i =>
      simp only [runOp, get_note_by_id] at herr ⊢
      cases h : db.find i <;> simp_all
  | update i raw t =>
      simp only [runOp, putNote] at herr ⊢
      cases hp : parseUpdateNote raw with
      | error e => simp
      | ok u =>
          simp_all only [update_note]
          cases h : db.find i <;> simp_all
  | delete i =>
      simp only [runOp, delete_note] at herr ⊢
      cases h : db.find i <;> simp_all

/-- Witness for C10: GetById on id 5 of the empty table errors (404) and
returns the table unchanged. -/
theorem error_leaves_table_unchanged_witness :
    (runOp (.get 5) dbEmpty).2 = dbEmpty :=
  error_leaves_table_unchanged (.get 5) dbEmpty (by decide)

/-- The row a successful `find` returns is a member of the table. -/
theorem DB.find_mem {db : DB} {i : Int} {n : NoteRow}
    (h : db.find i = some n) : n ∈ db.rows :=
  List.mem_of_find?_eq_some h

/-- The row a successful `find` returns carries the id that was looked up. -/
theorem DB.find_id {db : DB} {i : Int} {n : NoteRow}
    (h : db.find i = some n) : n.id = i := by
  have hp := List.find?_some h
  simpa using hp

/-- `applyUpdate` never touches the primary key. -/
theorem applyUpdate_id (u : UpdateNote) (t : Nat) (n : NoteRow) :
    (applyUpdate u t n).id = n.id := by
  obtain ⟨ut, uc⟩ := u
  cases ut <;> cases uc <;> rfl

/-- The title after `applyUpdate` is the supplied one when present, the
stored one otherwise. -/
theorem applyUpdate_title (u : UpdateNote) (t : Nat) (n : NoteRow) :
    (applyUpdate u t n).title = u.title.getD n.title := by
  obtain ⟨ut, uc⟩ := u
  cases ut <;> cases uc <;> rfl

/-- A successful `parseUpdateNote` returns its input unchanged. -/
theorem parseUpdateNote_ok {raw u : UpdateNote}
    (h : parseUpdateNote raw = .ok u) : u = raw := by
  unfold parseUpdateNote at h
  split at h
  · exact absurd h (by simp)
  · exact (Except.ok.inj h).symm

/-- Replacing, by id, the row that `find?` locates makes the replacement the
row that `find?` locates afterwards, provided the replacement keeps the
id. -/
theorem find?_map_update {i : Int} {n3 : NoteRow} (hid : n3.id = i)
    (rows : List NoteRow) :
    ∀ {n : NoteRow}, rows.find? (fun r => r.id == i) = some n →
      (List.map (fun r => if r.id == i then n3 else r) rows).find?
        (fun r => r.id == i) = some n3 := by
  induction rows with
  | nil => intro n h; simp at h
  | cons r rs ih =>
      intro n h
      by_cases hr : r.id = i
      · simp only [List.map_cons]
        have hif : ((if r.id == i then n3 else r) : NoteRow) = n3 := by
          simp [hr]
        rw [hif]
        exact List.find?_cons_of_pos _ (by simp [hid])
      · have hpr : ¬((fun x : NoteRow => x.id == i) r = true) := by simp [hr]
        simp only [List.map_cons]
        have hif : ((if r.id == i then n3 else r) : NoteRow) = r := by
          simp [hr]
        rw [hif, List.find?_cons_of_neg (p := fun x : NoteRow => x.id == i) _ hpr]
        rw [List.find?_cons_of_neg (p := fun x : NoteRow => x.id == i) _ hpr] at h
        exact ih h

/-- `update_note` on a found row: responds 200 with the updated row and
replaces that row in the table. -/
theorem update_note_found (i : Int) (u : UpdateNote) (t : Nat) (db : DB)
    (n : NoteRow) (hfind : db.find i = some n) :
    update_note i u t db =
      ({ status := 200, body := .note (applyUpdate u t n) },
       ⟨db.rows.map (fun r => if r.id == i then applyUpdate u t n else r)⟩) := by
  simp [update_note, hfind]

/-- After a successful update, looking the id up again yields exactly the
updated row. -/
theorem find_after_update (i : Int) (u : UpdateNote) (t : Nat) (db : DB)
    (n : NoteRow) (hfind : db.find i = some n) :
    ((update_note i u t db).2).find i = some (applyUpdate u t n) := by
  rw [update_note_found i u t db n hfind]
  have hid : (applyUpdate u t n).id = i := by
    rw [applyUpdate_id]
    exact DB.find_id hfind
  exact find?_map_update hid db.rows hfind

/-- C5: on an existing note, a title-only update responds 200 with the note
whose title is replaced and `updated_at` set to the new clock sample,
everything else (id, content, created_at) unchanged, and that is exactly
the row now stored under the id; with a monotone clock the new
`updated_at` is at least the prior one.  The symmetric statement holds for
a content-only update. -/
theorem update_single_field_frame (i : Int) (db : DB) (n : NoteRow) (t : Nat)
    (hfind : db.find i = some n) (hclock : n.updated_at ≤ t) :
    (∀ s : String,
      (putNote i ⟨some s, none⟩ t db).1 =
        { status := 200, body := .note { n with title := s, updated_at := t } } ∧
      ((putNote i ⟨some s, none⟩ t db).2).find i =
        some { n with title := s, updated_at := t } ∧
      n.updated_at ≤ ({ n with title := s, updated_at := t } : NoteRow).updated_at) ∧
    (∀ c : String,
      (putNote i ⟨none, some c⟩ t db).1 =
        { status := 200, body := .note { n with content := some c, updated_at := t } } ∧
      ((putNote i ⟨none, some c⟩ t db).2).find i =
        some { n with content := some c, updated_at := t } ∧
      n.updated_at ≤ ({ n with content := some c, updated_at := t } : NoteRow).updated_at) := by
  constructor
  · intro s
    have hparse : parseUpdateNote ⟨some s, none⟩ = .ok ⟨some s, none⟩ := rfl
    have happ : applyUpdate ⟨some s, none⟩ t n =
        { n with title := s, updated_at := t } := rfl
    refine ⟨?_, ?_, hclock⟩
    · rw [show putNote i ⟨some s, none⟩ t db = update_note i ⟨some s, none⟩ t db
        from rfl, update_note_found i _ t db n hfind, happ]
    · rw [show putNote i ⟨some s, none⟩ t db = update_note i ⟨some s, none⟩ t db
        from rfl, ← happ]
      exact find_after_update i _ t db n hfind
  · intro c
    have happ : applyUpdate ⟨none, some c⟩ t n =
        { n with content := some c, updated_at := t } := rfl
    refine ⟨?_, ?_, hclock⟩
    · rw [show putNote i ⟨none, some c⟩ t db = update_note i ⟨none, some c⟩ t db
        from rfl, update_note_found i _ t db n hfind, happ]
    · rw [show putNote i ⟨none, some c⟩ t db = update_note i ⟨none, some c⟩ t db
        from rfl, ← happ]
      exact find_after_update i _ t db n hfind

/-- Witness for C5: updating only the title of the stored note responds 200
with content, id and created_at untouched and updated_at set to 5. -/
theorem update_single_field_frame_witness :
    (putNote 1 ⟨some "B", none⟩ 5 dbOne).1 =
      { status := 200, body := .note { rowA with title := "B", updated_at := 5 } } :=
  ((update_single_field_frame 1 dbOne rowA 5 (by decide) (by decide)).1 "B").1

instance (db : DB) : Decidable db.titlesNonempty :=
  inferInstanceAs (Decidable (∀ r ∈ db.rows, r.title ≠ ""))

/-- One request that never supplies an empty title keeps every persisted
title non-empty. -/
theorem runOp_titlesNonempty (op : Op) (db : DB)
    (hop : op.suppliesNoEmptyTitle) (hdb : db.titlesNonempty) :
    ((runOp op db).2).titlesNonempty := by
  cases op with
  | create raw t1 t2 =>
      obtain ⟨title, content⟩ := raw
      cases title with
      | none => simpa [runOp, postNotes, parseCreateNote] using hdb
      | some s =>
          have hs : s ≠ "" := by
            simpa [Op.suppliesNoEmptyTitle] using hop
          intro r hr
          simp only [runOp, postNotes, parseCreateNote, create_note] at hr
          rcases List.mem_append.mp hr with h | h
          · exact hdb r h
          · rcases List.mem_singleton.mp h with rfl
            simpa using hs
  | list skip limit =>
      simp only [runOp, getNotesRoute]
      cases parseListParams skip limit <;> simpa using hdb
  | get i =>
      simp only [runOp, get_note_by_id]
      cases db.find i <;> simpa using hdb
  | update i raw t =>
      simp only [runOp, putNote]
      cases hp : parseUpdateNote raw with
      | error e => simpa using hdb
      | ok u =>
          show ((update_note i u t db).2).titlesNonempty
          cases hf : db.find i with
          | none => simp only [update_note, hf]; simpa using hdb
          | some n =>
              rw [update_note_found i u t db n hf]
              intro r hr
              simp only at hr
              rcases List.mem_map.mp hr with ⟨r0, hr0, heq⟩
              have hne : u.title ≠ some "" := by
                rcases parseUpdateNote_ok hp with rfl
                simpa [Op.suppliesNoEmptyTitle] using hop
              by_cases hc : r0.id = i
              · rw [if_pos (by simp [hc])] at heq
                subst heq
                rw [applyUpdate_title]
                cases hu : u.title with
                | none => simpa using hdb n (DB.find_mem hf)
                | some s =>
                    rw [hu] at hne
                    simp only [Option.getD_some]
                    intro hs
                    exact hne (by rw [hs])
              · rw [if_neg (by simp [hc])] at heq
                subst heq
                exact hdb r0 hr0
  | delete i =>
      simp only [runOp, delete_note]
      cases db.find i with
      | none => simpa using hdb
      | some n =>
          intro r hr
          exact hdb r (List.mem_of_mem_filter hr)

/-- C3 counterexample: a successful Update (status 200) that supplies the
empty string as the title persists a note whose title is empty — neither
the create nor the update schema forbids an empty string, so the claimed
invariant fails. -/
theorem update_empty_title_persisted :
    putNote 1 ⟨some "", none⟩ 1 dbOne =
      ({ status := 200, body := .note ⟨1, "", none, 0, 1⟩ },
       ⟨[⟨1, "", none, 0, 1⟩]⟩) := by
  rfl

/-- C3 (amended): a persisted title is never null (every stored title is a
string by the schema), and as long as no Create or Update request supplies
an empty-string title, no sequence of operations produces a persisted note
with an empty title; the code does not itself reject empty titles. -/
theorem ops_preserve_titlesNonempty (ops : List Op) (db : DB)
    (hdb : db.titlesNonempty)
    (hops : ∀ op ∈ ops, op.suppliesNoEmptyTitle) :
    (runOps ops db).titlesNonempty := by
  induction ops generalizing db with
  | nil => simpa [runOps] using hdb
  | cons op rest ih =>
      have hstep := runOp_titlesNonempty op db (hops op (by simp)) hdb
      have hrest : ∀ o ∈ rest, o.suppliesNoEmptyTitle :=
        fun o ho => hops o (by simp [ho])
      simpa [runOps] using ih (runOp op db).2 hstep hrest

/-- Witness for C3 (amended): a create, an update and a delete, none
supplying an empty title, keep every persisted title non-empty. -/
theorem ops_preserve_titlesNonempty_witness :
    (runOps
      [.create ⟨some "A", none⟩ 0 0, .update 1 ⟨none, some "c"⟩ 1, .delete 2]
      dbEmpty).titlesNonempty :=
  ops_preserve_titlesNonempty
    [.create ⟨some "A", none⟩ 0 0, .update 1 ⟨none, some "c"⟩ 1, .delete 2]
    dbEmpty (by decide) (by decide)

end NotesApi
